import Mathlib

/-!
Shallow embedding of the milter library (framing codec, session command
dispatch, panic boundary) and proofs about it.

Bytes are modelled as `Nat` (values below 256 on a real wire); Go byte
slices and Go strings are `List Nat`; Go maps are association lists where
a later insertion wins; a Go `nil` slice or map is `Option.none`.
Go runtime faults (index or slice out of range) are explicit constructors.
-/

namespace MilterSpec

/-- Modelled from the spec: the `Message` struct (its defining file is not
under src/; spec section 3): a one-byte command/response code and an opaque
payload. `ReadPacket`/`WritePacket` in src/session.go construct and consume
exactly these two fields. -/
structure Message where
  Code : Nat
  Data : List Nat
deriving DecidableEq

/-- Big-endian bytes of a 32-bit value, as written by `binary.Write` with
`binary.BigEndian` on a `uint32` (16777216 = 2^24, 65536 = 2^16). -/
def be32 (n : Nat) : List Nat :=
  [n / 16777216 % 256, n / 65536 % 256, n / 256 % 256, n % 256]

/-- WritePacket (src/session.go lines 114-139): the 4-byte big-endian
length `uint32(len(msg.Data)+1)` (the Go int-to-uint32 conversion truncates,
hence the modulus by 2^32 = 4294967296), then the code byte, then the
payload, flushed as one packet. -/
def writePacket (m : Message) : List Nat :=
  be32 ((m.Data.length + 1) % 4294967296) ++ m.Code :: m.Data

/-- Outcome of ReadPacket: a read error (short stream), a Go runtime fault
(index out of range), or a decoded message plus the unread rest of the
stream. -/
inductive ReadResult where
  | streamErr : ReadResult
  | fault : ReadResult
  | ok : Message → List Nat → ReadResult
deriving DecidableEq

/-- The final lines of ReadPacket: `Message{Code: data[0], Data: data[1:]}`.
On a zero-length `data` the `data[0]` access is an index-out-of-range
runtime fault, not an error return. -/
def packetOf (data : List Nat) (rest : List Nat) : ReadResult :=
  match data with
  | [] => ReadResult.fault
  | c :: pl => ReadResult.ok ⟨c, pl⟩ rest

/-- ReadPacket (src/session.go lines 91-111): `binary.Read` of the 4-byte
big-endian length (fewer than 4 bytes on the stream is a read error),
`io.ReadFull` of that many bytes (a short read is a read error; on a
zero-length buffer it succeeds at once), then the `Message` construction of
`packetOf`. There is no check that the length is at least 1. -/
def readPacket (input : List Nat) : ReadResult :=
  match input with
  | b0 :: b1 :: b2 :: b3 :: rest =>
    let L := ((b0 * 256 + b1) * 256 + b2) * 256 + b3
    if rest.length < L then ReadResult.streamErr
    else packetOf (rest.take L) (rest.drop L)
  | _ => ReadResult.streamErr

/-- Modelled from the spec: `readCString` (its defining file is not under
src/; spec section 4.1): the bytes of a C-string, i.e. everything before
the first NUL, or the whole input when no NUL occurs. -/
def readCString (d : List Nat) : List Nat := d.takeWhile (fun b => b != 0)

/-- Worker for `decodeCStrings`: split the bytes at NUL separators,
accumulating the current string in reverse. A final NUL terminates the
last string; a trailing unterminated run also counts as a string. -/
def splitNulGo (cur : List Nat) : List Nat → List (List Nat)
  | [] => [cur.reverse]
  | 0 :: [] => [cur.reverse]
  | 0 :: b :: rest => cur.reverse :: splitNulGo [] (b :: rest)
  | b :: rest => splitNulGo (b :: cur) rest

/-- Modelled from the spec: `decodeCStrings` (its defining file is not
under src/; spec section 4.1): a C-string list is the concatenation of
C-strings until the end of the payload; an empty payload is the empty
list. -/
def decodeCStrings (d : List Nat) : List (List Nat) :=
  match d with
  | [] => []
  | b :: rest => splitNulGo [] (b :: rest)

/-- Modelled from the spec: `strings.TrimSuffix(s, null)` as used by the
helo case — drop one trailing NUL byte if present (the NUL terminator of
the single C-string of spec section 4.2). -/
def trimSuffixNul (d : List Nat) : List Nat :=
  if d.getLast? = some 0 then d.dropLast else d

/-- True for the bytes of `<` (60) and `>` (62). -/
def isAngle (b : Nat) : Bool := b == 60 || b == 62

/-- `strings.Trim(s, "<>")`: remove every leading and trailing `<` or `>`
byte (spec section 4.2: envelope addresses are trimmed of surrounding
angle brackets). -/
def trimAngles (d : List Nat) : List Nat :=
  ((d.dropWhile isAngle).reverse.dropWhile isAngle).reverse

/-- ASCII model of `strings.ToLower` (spec section 4.2: envelope addresses
are lowercased before being passed to the filter). -/
def toLowerB (d : List Nat) : List Nat :=
  d.map (fun b => if 65 ≤ b ∧ b ≤ 90 then b + 32 else b)

/-- The `family` byte-to-label map literal of the connect case
(src/session.go lines 176-181); a missing key yields the Go zero value, the empty string. -/
def familyStr (b : Nat) : String :=
  if b = 85 then "unknown"
  else if b = 76 then "unix"
  else if b = 52 then "tcp4"
  else if b = 54 then "tcp6"
  else ""

/-- Modelled from the spec: the `Response` values Process returns (their
defining file is not under src/; spec sections 3 and 8): a simple verdict
carrying only a wire code byte, or a code with payload as built by
`NewResponse` in the option-negotiation case. -/
inductive Resp where
  | simple : Nat → Resp
  | withData : Nat → List Nat → Resp
deriving DecidableEq

/-- Modelled from the spec: the Continue verdict serializes to wire code
`c` = 99 (spec section 8, scenario 1). -/
def RespContinue : Resp := Resp.simple 99

/-- Modelled from the spec: the Tempfail verdict, a simple response with
the standard tempfail wire code `t` = 116. -/
def RespTempFail : Resp := Resp.simple 116

/-- Modelled from the spec: `Response()` turns a verdict into the single
packet it emits (a simple response has an empty payload). -/
def respMessage : Resp → Message
  | Resp.simple c => ⟨c, []⟩
  | Resp.withData c d => ⟨c, d⟩

/-- The sentinel errors of src/errors.go: `ErrCloseSession` (returned by
the quit case and the default case of Process) and `ErrMacroNoData`
(declared there but referenced nowhere in the code). -/
inductive GoErr where
  | closeSession : GoErr
  | macroNoData : GoErr
deriving DecidableEq

/-- The mutable per-session fields of `milterSession` that Process touches
(src/session.go lines 66-76): the header map (`textproto.MIMEHeader`,
modelled as ordered key/value pairs, `none` for Go nil), the macro map
(`none` for Go nil), and the per-message ID. Key canonicalization done by
`textproto` is not modelled (external library); keys are stored verbatim. -/
structure SessionState where
  headers : Option (List (List Nat × List Nat))
  macros : Option (List (List Nat × List Nat))
  mailID : String
deriving DecidableEq

/-- Insertion into a Go map modelled as an association list; `mapGet`
makes the later insertion win. -/
def mapSet (m : List (List Nat × List Nat)) (k v : List Nat) :
    List (List Nat × List Nat) :=
  m ++ [(k, v)]

/-- Lookup in the association-list model of a Go map: the last binding for
the key wins, `none` when the key is absent. -/
def mapGet (m : List (List Nat × List Nat)) (k : List Nat) : Option (List Nat) :=
  m.foldl (fun acc p => if p.1 = k then some p.2 else acc) none

/-- One callback invocation on the user-supplied filter, with the decoded
arguments Process passes (src/session.go; the Milter interface itself is
consumed through these calls). -/
inductive FilterCall where
  | init : String → String → FilterCall
  | connect : List Nat → String → Nat → List Nat → FilterCall
  | helo : List Nat → FilterCall
  | mailFrom : List Nat → FilterCall
  | rcptTo : List Nat → FilterCall
  | header : List Nat → List Nat → FilterCall
  | headersEnd : Option (List (List Nat × List Nat)) → FilterCall
  | bodyChunk : List Nat → FilterCall
  | bodyEnd : FilterCall
deriving DecidableEq

/-- Filter behavior: the `(Response, error)` pair each callback
returns (ignored for the void callbacks `init`). -/
abbrev FilterM := FilterCall → Option Resp × Option GoErr

/-- Outcome of Process on one message: a Go runtime fault, or the returned
`(Response, error)` pair together with the updated session state and the
filter callbacks invoked (in order). -/
inductive ProcOut where
  | fault : ProcOut
  | ok : Option Resp → Option GoErr → SessionState → List FilterCall → ProcOut
deriving DecidableEq

/-- The macro-storing loop of the `D` case (src/session.go lines 199-203):
`for i := 0; i < len(data); i += 2` stores `data[i] -> data[i+1]`. When
the list has odd length the final `data[i+1]` access is out of range:
modelled as `none` (a Go runtime fault). -/
def storeMacros (m : List (List Nat × List Nat)) :
    List (List Nat) → Option (List (List Nat × List Nat))
  | [] => some m
  | [_] => none
  | k :: v :: t => storeMacros (mapSet m k v) t

/-- The `C` (connect) case of Process (src/session.go lines 162-192).
`readCString` followed by `msg.Data = msg.Data[len(Hostname)+1:]` faults
when the payload has no NUL (the slice overruns its capacity); the
subsequent `msg.Data[0]` faults when nothing follows the NUL. Only the
missing-port check (`len(msg.Data) < 2` for families `4`/`6`) returns
Tempfail. `net.ParseIP` is external; the raw address bytes are passed. -/
def processC (f : FilterM) (st : SessionState) (d : List Nat) : ProcOut :=
  let host := d.takeWhile (fun b => b != 0)
  match d.dropWhile (fun b => b != 0) with
  | [] => ProcOut.fault
  | [_] => ProcOut.fault
  | _ :: pf :: rest2 =>
    if pf = 52 ∨ pf = 54 then
      match rest2 with
      | p1 :: p2 :: rest3 =>
        let call := FilterCall.connect host (familyStr pf) (p1 * 256 + p2) (readCString rest3)
        let r := f call
        ProcOut.ok r.1 r.2 st [call]
      | _ => ProcOut.ok (some RespTempFail) none st []
    else
      let call := FilterCall.connect host (familyStr pf) 0 (readCString rest2)
      let r := f call
      ProcOut.ok r.1 r.2 st [call]

/-- The `D` (define macros) case of Process (src/session.go lines
194-206): the macro map is replaced by a fresh empty map, then
`decodeCStrings(msg.Data[1:])` is stored pairwise. `msg.Data[1:]` on an
empty zero-capacity payload is a slice-bounds fault; an odd number of
decoded strings faults in the loop. No response is sent. -/
def processD (st : SessionState) (d : List Nat) : ProcOut :=
  match d with
  | [] => ProcOut.fault
  | _ :: rest =>
    match storeMacros [] (decodeCStrings rest) with
    | none => ProcOut.fault
    | some mm => ProcOut.ok none none { st with macros := some mm } []

/-- The `H` (helo) case of Process (src/session.go lines 213-216). -/
def processH (f : FilterM) (st : SessionState) (d : List Nat) : ProcOut :=
  let call := FilterCall.helo (trimSuffixNul d)
  let r := f call
  ProcOut.ok r.1 r.2 st [call]

/-- The `L` (header) case of Process (src/session.go lines 217-228): the
header map is initialized if nil; when exactly two C-strings decode, the
pair is appended and the Header callback runs; otherwise control falls
through to the default Continue with no callback (not Tempfail). -/
def processL (f : FilterM) (st : SessionState) (d : List Nat) : ProcOut :=
  let hs := st.headers.getD []
  match decodeCStrings d with
  | [k, v] =>
    let call := FilterCall.header k v
    let r := f call
    ProcOut.ok r.1 r.2 { st with headers := some (mapSet hs k v) } [call]
  | _ => ProcOut.ok (some RespContinue) none { st with headers := some hs } []

/-- The `M` (mail from) case of Process (src/session.go lines 230-236): a
fresh mail ID, Init, then MailFrom with the angle-trimmed lowercased
envelope sender. The header map is not touched. The random
`genRandomID(12)` is modelled by the `fid` parameter. -/
def processM (sid fid : String) (f : FilterM) (st : SessionState) (d : List Nat) : ProcOut :=
  let st2 := { st with mailID := fid }
  let call := FilterCall.mailFrom (toLowerB (trimAngles (readCString d)))
  let r := f call
  ProcOut.ok r.1 r.2 st2 [FilterCall.init sid fid, call]

/-- The `R` (rcpt to) case of Process (src/session.go lines 255-258). -/
def processR (f : FilterM) (st : SessionState) (d : List Nat) : ProcOut :=
  let call := FilterCall.rcptTo (toLowerB (trimAngles (readCString d)))
  let r := f call
  ProcOut.ok r.1 r.2 st [call]

/-- Process (src/session.go lines 142-274), the switch over the command
byte: `A`=65 resets headers and macros to nil and calls Init with the
current IDs; `B`=66, `E`=69, `N`=78 delegate to the filter; `C`=67,
`D`=68, `H`=72, `L`=76, `M`=77, `R`=82 are the cases above; `O`=79 replies
with version 2 and the action/protocol masks (`uint32` conversions
truncate); `Q`=81 returns ErrCloseSession; `T`=84 falls through to the
default Continue; every unrecognized code is logged and returns
ErrCloseSession — the negotiated protocol bits are never consulted. -/
def process (actions protocol : Nat) (sid fid : String) (f : FilterM)
    (st : SessionState) (msg : Message) : ProcOut :=
  if msg.Code = 65 then
    ProcOut.ok none none { st with headers := none, macros := none }
      [FilterCall.init sid st.mailID]
  else if msg.Code = 66 then
    let call := FilterCall.bodyChunk msg.Data
    let r := f call
    ProcOut.ok r.1 r.2 st [call]
  else if msg.Code = 67 then processC f st msg.Data
  else if msg.Code = 68 then processD st msg.Data
  else if msg.Code = 69 then
    let r := f FilterCall.bodyEnd
    ProcOut.ok r.1 r.2 st [FilterCall.bodyEnd]
  else if msg.Code = 72 then processH f st msg.Data
  else if msg.Code = 76 then processL f st msg.Data
  else if msg.Code = 77 then processM sid fid f st msg.Data
  else if msg.Code = 78 then
    let call := FilterCall.headersEnd st.headers
    let r := f call
    ProcOut.ok r.1 r.2 st [call]
  else if msg.Code = 79 then
    ProcOut.ok
      (some (Resp.withData 79
        (be32 2 ++ be32 (actions % 4294967296) ++ be32 (protocol % 4294967296))))
      none st []
  else if msg.Code = 81 then
    ProcOut.ok none (some GoErr.closeSession) st []
  else if msg.Code = 82 then processR f st msg.Data
  else if msg.Code = 84 then
    ProcOut.ok (some RespContinue) none st []
  else
    ProcOut.ok none (some GoErr.closeSession) st []

/-- The session state a Process outcome leaves behind (`none` after a
runtime fault: the session dies and the state is unobservable). -/
def stateOf : ProcOut → Option SessionState
  | ProcOut.fault => none
  | ProcOut.ok _ _ st _ => some st

/-- The bytes one loop iteration of HandleMilterCommands writes
(src/session.go lines 287-316): on a non-nil error nothing is written and
the session ends; a nil response is ignored; otherwise the packet of
`resp.Response()` goes on the wire. No condition on the negotiated
protocol bits appears anywhere on this path. -/
def stepBytes : ProcOut → List Nat
  | ProcOut.ok (some r) none _ _ => writePacket (respMessage r)
  | _ => []

/-- Modelled from the spec (and src/unnamed/part_000 lines 97-116): the
value a filter panic carries — either a Go `error` or any other value,
which `fmt.Sprint` renders to a string. -/
inductive PanicVal where
  | err : String → PanicVal
  | other : String → PanicVal
deriving DecidableEq

/-- The normalization in handlePanic (src/unnamed/part_000 lines 105-112):
an error value is passed through, anything else becomes
`errors.New(fmt.Sprint(r))`. -/
def normalizePanic : PanicVal → String
  | PanicVal.err e => e
  | PanicVal.other s => s

/-- Outcome of the deferred panic boundary: the panic keeps unwinding, the
deferred call returns with no panic in flight, or the panic was recovered
and the normalized error delivered to the listed handlers in order. -/
inductive PanicOut where
  | propagated : PanicOut
  | returned : PanicOut
  | recovered : List (Nat × String) → PanicOut
deriving DecidableEq

/-- handlePanic (src/unnamed/part_000 lines 97-116): when the handler
slice is nil it returns before calling `recover()`, so a panic in flight
keeps propagating; otherwise `recover()` is called, a nil recovery returns
normally, and a recovered value is normalized and passed to every handler
in the slice, each exactly once. Handlers are identified by `Nat` tokens;
the slice is `Option` to keep the Go nil/empty distinction. -/
def handlePanic (handlers : Option (List Nat)) (r : Option PanicVal) : PanicOut :=
  match handlers with
  | none =>
    match r with
    | none => PanicOut.returned
    | some _ => PanicOut.propagated
  | some hs =>
    match r with
    | none => PanicOut.returned
    | some v => PanicOut.recovered (hs.map fun h => (h, normalizePanic v))

/-- An initial session state: nil header map, nil macro map. -/
def st0 : SessionState := ⟨none, none, "m0"⟩

/-- A session state that already holds the macro binding a=1
(bytes 97 -> 49). -/
def stMacA : SessionState := ⟨none, some [([97], [49])], "m1"⟩

/-- A session state whose header map already holds one header k: v
(bytes 107 -> 118), as accumulated by a previous message. -/
def stHdr : SessionState := ⟨some [([107], [118])], none, "m1"⟩

/-- A filter whose every callback returns (Continue, nil). -/
def contFilter : FilterM := fun _ => (some RespContinue, none)

/-- A valid connect payload: hostname "h" NUL, family `U` = 85, then the
empty address C-string. -/
def connPayload : List Nat := [104, 0, 85, 0]

/-- Unfolding of WritePacket on a literal message. -/
theorem writePacket_eq (c : Nat) (d : List Nat) :
    writePacket ⟨c, d⟩ = be32 ((d.length + 1) % 4294967296) ++ c :: d := rfl

/-- Reading a stream that starts with the 4 big-endian bytes of `n`
dispatches on whether `n` bytes remain. -/
theorem readPacket_be32 (n : Nat) (hn : n < 4294967296) (rest : List Nat) :
    readPacket (be32 n ++ rest) =
      if rest.length < n then ReadResult.streamErr
      else packetOf (rest.take n) (rest.drop n) := by
  show (if rest.length <
          ((n / 16777216 % 256 * 256 + n / 65536 % 256) * 256 + n / 256 % 256) * 256 + n % 256
        then ReadResult.streamErr
        else packetOf
          (rest.take (((n / 16777216 % 256 * 256 + n / 65536 % 256) * 256 + n / 256 % 256) * 256
            + n % 256))
          (rest.drop (((n / 16777216 % 256 * 256 + n / 65536 % 256) * 256 + n / 256 % 256) * 256
            + n % 256)))
      = _
  have hE : ((n / 16777216 % 256 * 256 + n / 65536 % 256) * 256 + n / 256 % 256) * 256
      + n % 256 = n := by omega
  rw [hE]

end MilterSpec

namespace MilterSpec

/-- C1: a packet whose 4-byte big-endian length prefix is 0 is not rejected
as a stream error: ReadPacket reads the empty packet body successfully and
then faults reading `data[0]` from the empty slice. The claim says the
session returns an error (StreamError) and never touches a byte of an
empty packet; the code instead reaches the out-of-range access. -/
theorem c1_zero_length_faults : readPacket [0, 0, 0, 0] = ReadResult.fault := by
  decide

/-- C5 counterexample: the write/read round trip is not the identity for
every payload. At payload length 2^32 - 1 the `uint32` length prefix wraps
to 0, so reading back the written bytes faults instead of returning the
original message. -/
theorem c5_framing_roundtrip_cex :
    readPacket (writePacket ⟨65, List.replicate 4294967295 0⟩) = ReadResult.fault := by
  have hlen : (List.replicate 4294967295 (0 : Nat)).length = 4294967295 :=
    List.length_replicate _ _
  have hw : writePacket ⟨65, List.replicate 4294967295 0⟩
      = 0 :: 0 :: 0 :: 0 :: 65 :: List.replicate 4294967295 0 := by
    rw [writePacket_eq, hlen]
    rw [show (4294967295 + 1) % 4294967296 = 0 by norm_num]
    rfl
  rw [hw]
  have hr : readPacket (0 :: 0 :: 0 :: 0 :: 65 :: List.replicate 4294967295 0)
      = if (65 :: List.replicate 4294967295 (0 : Nat)).length < 0 then ReadResult.streamErr
        else packetOf ((65 :: List.replicate 4294967295 (0 : Nat)).take 0)
          ((65 :: List.replicate 4294967295 (0 : Nat)).drop 0) := rfl
  rw [hr, if_neg (Nat.not_lt_zero _), List.take_zero]
  rfl

/-- C5 (amended): for every code byte and every payload whose length plus
one fits in a uint32, writing the message and reading the stream back
yields exactly the original message with nothing left over. -/
theorem c5_framing_roundtrip (m : Message) (h : m.Data.length + 1 < 4294967296) :
    readPacket (writePacket m) = ReadResult.ok m [] := by
  obtain ⟨c, d⟩ := m
  have h2 : d.length + 1 < 4294967296 := h
  have hstream : writePacket ⟨c, d⟩ = be32 (d.length + 1) ++ c :: d := by
    rw [writePacket_eq, Nat.mod_eq_of_lt h2]
  rw [hstream, readPacket_be32 (d.length + 1) h2 (c :: d)]
  rw [if_neg (by simp)]
  rw [show d.length + 1 = (c :: d).length by simp, List.take_length, List.drop_length]
  rfl

/-- C5 witness: the round trip at a small concrete message. -/
theorem c5_framing_roundtrip_witness :
    readPacket (writePacket ⟨65, [104, 105]⟩) = ReadResult.ok ⟨65, [104, 105]⟩ [] :=
  c5_framing_roundtrip ⟨65, [104, 105]⟩ (by norm_num)

/-- C2: with the no-reply bit for connect (OptNrConn = 0x1000 = 4096)
negotiated and the filter returning Continue for the `C` command, the
session still writes the 5-byte Continue packet `00 00 00 01 63`: neither
Process nor the write loop ever consults the no-reply bits, so a Continue
verdict does not emit zero bytes as the claim requires. -/
theorem c2_noreply_bits_ignored :
    stepBytes (process 0 4096 "s" "m1" contFilter st0 ⟨67, connPayload⟩)
      = [0, 0, 0, 1, 99] := by
  decide

/-- C3: processing a `D` command replaces the macro map wholesale instead
of merging: starting from a session that holds the macro a=1, a `D` packet
defining only b=2 (stage byte 0, then "b" NUL "2" NUL) leaves a map in
which the previously defined a is gone. -/
theorem c3_macros_not_merged :
    process 0 0 "s" "m2" contFilter stMacA ⟨68, [0, 98, 0, 50, 0]⟩
        = ProcOut.ok none none { stMacA with macros := some [([98], [50])] } []
      ∧ mapGet [([98], [50])] [97] = none := by
  decide

/-- C4: a `D` (define macros) command with an empty payload is not a legal
no-op: the code evaluates `msg.Data[1:]` on the empty zero-capacity slice
and faults, for any filter. -/
theorem c4_empty_macro_packet_faults (f : FilterM) :
    process 0 0 "s" "m2" f stMacA ⟨68, []⟩ = ProcOut.fault := rfl

/-- C10: a `D` payload that decodes to an odd number of C-strings (stage
byte 0, then the single key "a" NUL with no value) makes the macro-storing
loop read `data[i+1]` one past the end of the list: a fault, for any
filter. -/
theorem c10_odd_macro_list_faults (f : FilterM) :
    process 0 0 "s" "m2" f stMacA ⟨68, [0, 97, 0]⟩ = ProcOut.fault := rfl

/-- C6 counterexample: immediately after processing an `M` (MAIL FROM)
command that begins a new message, the header map still holds the header
accumulated by the previous message — the `M` case never clears it, so
the claim that the map is empty at that point is false. -/
theorem c6_headers_survive_mailfrom_cex :
    process 0 0 "s" "m2" contFilter stHdr ⟨77, [97, 0]⟩
      = ProcOut.ok (some RespContinue) none { stHdr with mailID := "m2" }
          [FilterCall.init "s" "m2", FilterCall.mailFrom [97]] := by
  decide

/-- C6 (amended): the header map is reset (to nil, i.e. empty) by the `A`
(abort) case together with the macro map, while the `M` (MAIL FROM) case
leaves the whole header map untouched — a second message observes the
headers of the previous message unless an abort intervened. -/
theorem c6_headers_reset_on_abort_only (a p : Nat) (sid fid : String)
    (f : FilterM) (st : SessionState) (dA dM : List Nat) :
    process a p sid fid f st ⟨65, dA⟩
        = ProcOut.ok none none { st with headers := none, macros := none }
            [FilterCall.init sid st.mailID]
      ∧ stateOf (process a p sid fid f st ⟨77, dM⟩) = some { st with mailID := fid } :=
  ⟨rfl, rfl⟩

/-- C7: a recognized command with a payload shorter than it requires does
not uniformly yield Tempfail: a `C` (connect) packet with an empty payload
faults outright (the hostname slice overruns), and an `L` (header) packet
whose payload decodes to a single C-string falls through to Continue, not
Tempfail — for any filter. -/
theorem c7_short_payload_not_tempfail (f : FilterM) :
    process 0 0 "s" "m2" f st0 ⟨67, []⟩ = ProcOut.fault
      ∧ process 0 0 "s" "m2" f st0 ⟨76, [107, 0]⟩
          = ProcOut.ok (some RespContinue) none { st0 with headers := some [] } [] :=
  ⟨rfl, rfl⟩

/-- C8 counterexample: with protocol mask 0 (so unknown commands are not
masked out and the UNKNOWN capability is as negotiated as this code ever
makes it), a packet with the unrecognized code `Z` = 90 closes the session
with ErrCloseSession and invokes no filter callback at all — there is no
Unknown callback and no Continue response, contrary to the claim. -/
theorem c8_unknown_code_cex :
    process 0 0 "s" "m2" contFilter st0 ⟨90, []⟩
      = ProcOut.ok none (some GoErr.closeSession) st0 [] := by
  decide

/-- C8 (amended): every packet whose command code is outside the command
table of Process closes the session — it returns a nil response and
ErrCloseSession, leaves the state unchanged and calls no filter callback —
regardless of the negotiated protocol bits. -/
theorem c8_unknown_code_closes (a p : Nat) (sid fid : String) (f : FilterM)
    (st : SessionState) (c : Nat) (d : List Nat)
    (h : c ∉ ([65, 66, 67, 68, 69, 72, 76, 77, 78, 79, 81, 82, 84] : List Nat)) :
    process a p sid fid f st ⟨c, d⟩ = ProcOut.ok none (some GoErr.closeSession) st [] := by
  simp only [List.mem_cons, List.not_mem_nil, or_false, not_or] at h
  obtain ⟨h1, h2, h3, h4, h5, h6, h7, h8, h9, h10, h11, h12, h13⟩ := h
  simp only [process, if_neg h1, if_neg h2, if_neg h3, if_neg h4, if_neg h5, if_neg h6,
    if_neg h7, if_neg h8, if_neg h9, if_neg h10, if_neg h11, if_neg h12, if_neg h13]

/-- C8 witness: the amended statement at the concrete unrecognized code
113 with a nonempty payload. -/
theorem c8_unknown_code_closes_witness :
    process 1 2 "sid" "fid" contFilter stHdr ⟨113, [1, 2]⟩
      = ProcOut.ok none (some GoErr.closeSession) stHdr [] :=
  c8_unknown_code_closes 1 2 "sid" "fid" contFilter stHdr 113 [1, 2] (by decide)

/-- C9 counterexample: with an empty but non-nil handler slice — zero
fault handlers registered — a panic does not propagate: handlePanic calls
`recover()` (the slice fails the `handlers == nil` test) and then delivers
the error to nobody, silently swallowing the fault, contrary to the
claim, which says that with no handler registered the fault propagates. -/
theorem c9_empty_handlers_swallow_cex :
    handlePanic (some []) (some (PanicVal.err "boom")) = PanicOut.recovered []
      ∧ handlePanic (some []) (some (PanicVal.err "boom")) ≠ PanicOut.propagated := by
  decide

/-- C9 (amended): a fault propagates exactly when the handler slice is
nil; when the slice is non-nil the fault is recovered, normalized (an
error is passed through, any other value is stringified) and delivered to
each handler in the slice in order, each exactly once — so a non-nil empty
slice swallows the fault without delivering it to anyone. -/
theorem c9_fault_delivery (hs : List Nat) (v : PanicVal) :
    handlePanic (some hs) (some v)
        = PanicOut.recovered (hs.map fun h => (h, normalizePanic v))
      ∧ handlePanic none (some v) = PanicOut.propagated :=
  ⟨rfl, rfl⟩

end MilterSpec
